import Mathlib

/-!
Shallow embedding of the quiz-generation subsystem of `smart_quiz_api`:
the redis-backed response cache, the retrying OpenAI client and the
URL-to-quiz pipeline of `src/services/scraper_service.py`, the rate
limiter used by `src/main.py` / `src/routers/quiz_router.py`, and the
interleaving of concurrent pipeline executions.

Machine-independent conventions: wall-clock time is `Nat` (seconds),
random samples and backoff waits are `ℚ`, text is `List Char` or
`String`, and Python exceptions are explicit `Except` / sum values.
-/

set_option maxRecDepth 8000

namespace SmartQuiz

/-! ## Upstream client: `call_openai` (src/services/scraper_service.py lines 110-122)

`call_openai` is decorated with
`@retry(stop=stop_after_attempt(3), wait=wait_random(min=1, max=2))`
from `tenacity`.  This decorator has no `retry=` predicate, so every
raised exception triggers a retry, and no `reraise=True`, so once the
stop condition is reached the last exception is wrapped in a
`tenacity.RetryError` rather than re-raised as-is. -/

/-- Error kinds that `openai.ChatCompletion.create` can raise, as the
spec's taxonomy distinguishes them: authentication failure and
invalid-request (non-transient 4xx), throttling, 5xx-class server
errors and network timeouts (transient). -/
inductive OpenAIErr
  | authFailure
  | invalidRequest
  | throttled
  | serverError
  | networkTimeout
  deriving DecidableEq, Repr, Inhabited

/-- What a call through the `tenacity` retry decorator surfaces to its
caller: the wrapped function's value, or a `tenacity.RetryError`
carrying the final attempt's exception (decorator has `reraise=False`,
the default). -/
inductive Surfaced (ε : Type) (α : Type)
  | ok (a : α)
  | retryError (last : ε)
  deriving DecidableEq, Repr

/-- Embeds `tenacity.wait_random(min, max)`: the sleep before a retry is
`min + u * (max - min)` where `u` is a fresh `random.random()` sample
in `[0, 1]`. -/
def waitRandom (lo hi : ℚ) (u : ℚ) : ℚ :=
  lo + u * (hi - lo)

/-- The `tenacity` retry loop with `stop_after_attempt fuel`, no retry
predicate (every exception retried) and `reraise=False`.  `attempt n`
is the outcome of executing the wrapped body for the `n`-th time
(global attempt index), `wait n` the sleep inserted after a failed
attempt `n` when a retry follows.  Returns the surfaced outcome, the
number of body executions performed, and the list of sleeps inserted. -/
def retryRun [Inhabited ε] (wait : Nat → ℚ) (attempt : Nat → Except ε α) :
    Nat → Nat → Surfaced ε α × Nat × List ℚ
  | 0, _ => (.retryError default, 0, [])
  | fuel + 1, n =>
    match attempt n with
    | .ok a => (.ok a, 1, [])
    | .error e =>
      match fuel with
      | 0 => (.retryError e, 1, [])
      | f + 1 =>
        let r := retryRun wait attempt (f + 1) (n + 1)
        (r.1, r.2.1 + 1, wait n :: r.2.2)

/-- Embeds `call_openai` (scraper_service lines 110-122): the OpenAI chat call
under `@retry(stop=stop_after_attempt(3), wait=wait_random(min=1, max=2))`.
`backend n` models the outcome of the `n`-th execution of the body
(`openai.ChatCompletion.create` for the given prompt), `rand n` the
`random.random()` sample used for the sleep after attempt `n`.
Returns (surfaced outcome, attempts made, sleeps inserted). -/
def call_openai (backend : Nat → Except OpenAIErr String) (rand : Nat → ℚ) :
    Surfaced OpenAIErr String × Nat × List ℚ :=
  retryRun (fun n => waitRandom 1 2 (rand n)) backend 3 0

/-- Same call starting at global attempt index `g` (used when several
`call_openai` invocations draw from one global attempt stream); returns
the surfaced outcome and the next free attempt index. -/
def call_openai_from (backend : Nat → Except OpenAIErr String) (rand : Nat → ℚ)
    (g : Nat) : Surfaced OpenAIErr String × Nat :=
  let r := retryRun (fun n => waitRandom 1 2 (rand n)) backend 3 g
  (r.1, g + r.2.1)

/-! Basic facts about the retry loop. -/

theorem retryRun_attempts_le [Inhabited ε] (wait : Nat → ℚ)
    (attempt : Nat → Except ε α) :
    ∀ fuel n, (retryRun wait attempt fuel n).2.1 ≤ fuel := by
  intro fuel
  induction fuel with
  | zero => intro n; exact Nat.le_refl 0
  | succ f ih =>
    intro n
    rw [retryRun]
    cases h : attempt n with
    | ok a => simp
    | error e =>
      cases f with
      | zero => simp
      | succ f' =>
        simpa using Nat.succ_le_succ (ih (n + 1))

theorem retryRun_waits_mem [Inhabited ε] (wait : Nat → ℚ)
    (attempt : Nat → Except ε α) :
    ∀ fuel n w, w ∈ (retryRun wait attempt fuel n).2.2 → ∃ m, w = wait m := by
  intro fuel
  induction fuel with
  | zero => intro n w hw; exact absurd hw (List.not_mem_nil w)
  | succ f ih =>
    intro n w hw
    rw [retryRun] at hw
    cases h : attempt n with
    | ok a => rw [h] at hw; simp at hw
    | error e =>
      rw [h] at hw
      cases f with
      | zero => simp at hw
      | succ f' =>
        simp only [List.mem_cons] at hw
        rcases hw with hw | hw
        · exact ⟨n, hw⟩
        · exact ih (n + 1) w hw

theorem retryRun_all_error [Inhabited ε] (wait : Nat → ℚ)
    (attempt : Nat → Except ε α) (n : Nat) (e0 e1 e2 : ε)
    (h0 : attempt n = .error e0) (h1 : attempt (n + 1) = .error e1)
    (h2 : attempt (n + 2) = .error e2) :
    retryRun wait attempt 3 n = (.retryError e2, 3, [wait n, wait (n + 1)]) := by
  simp [retryRun, h0, h1, h2]

theorem retryRun_first_ok [Inhabited ε] (wait : Nat → ℚ)
    (attempt : Nat → Except ε α) (n : Nat) (a : α)
    (h : attempt n = .ok a) :
    retryRun wait attempt 3 n = (.ok a, 1, []) := by
  simp [retryRun, h]

/-! ## Cache keys: `cache_key_url` (src/services/scraper_service.py lines 35-36)

`cache_key_url(url, quiz_type)` returns
`f"url_quiz_cache:{quiz_type}:{hashlib.sha256(url.encode()).hexdigest()}"`.
`hashlib.sha256(...).hexdigest()` is a 64-character lowercase-hex string,
i.e. the hex rendering of a digest drawn from a space of `16 ^ 64`
values.  The hash itself is an external library; the embedding keeps it
as a parameter `sha` with exactly that codomain and renders the digest
with an explicit base-16 printer. -/

/-- The digest space of SHA-256: 64 hex characters. -/
abbrev SHA_CARD : Nat := 16 ^ 64

/-- The type of `hashlib.sha256(url.encode())` as the cache code uses
it: a function from url text into the 256-bit digest space.  The cache
definitions below are stated over any such function; `sha256hex`
further down is the concrete SHA-256 they are instantiated with. -/
abbrev Sha : Type := List Char → Fin SHA_CARD

/-! Embedding of `hashlib.sha256` itself (FIPS 180-4), on 32-bit words
carried as `Nat` with explicit reduction modulo `2 ^ 32`. -/

/-- The 32-bit word modulus. -/
def w32 : Nat := 2 ^ 32

/-- Addition modulo `2 ^ 32`. -/
def add32 (a b : Nat) : Nat := (a + b) % w32

/-- Right rotation of a 32-bit word. -/
def rotr32 (x n : Nat) : Nat := ((x >>> n) ||| (x <<< (32 - n))) % w32

/-- SHA-256 sigma-0 (message schedule). -/
def smallSigma0 (x : Nat) : Nat := (rotr32 x 7) ^^^ (rotr32 x 18) ^^^ (x >>> 3)

/-- SHA-256 sigma-1 (message schedule). -/
def smallSigma1 (x : Nat) : Nat := (rotr32 x 17) ^^^ (rotr32 x 19) ^^^ (x >>> 10)

/-- SHA-256 Sigma-0 (compression). -/
def bigSigma0 (x : Nat) : Nat := (rotr32 x 2) ^^^ (rotr32 x 13) ^^^ (rotr32 x 22)

/-- SHA-256 Sigma-1 (compression). -/
def bigSigma1 (x : Nat) : Nat := (rotr32 x 6) ^^^ (rotr32 x 11) ^^^ (rotr32 x 25)

/-- SHA-256 choice function; bitwise complement is xor with the all-ones
32-bit word. -/
def chFn (x y z : Nat) : Nat := (x &&& y) ^^^ ((x ^^^ (w32 - 1)) &&& z)

/-- SHA-256 majority function. -/
def majFn (x y z : Nat) : Nat := (x &&& y) ^^^ (x &&& z) ^^^ (y &&& z)

/-- The 64 SHA-256 round constants (FIPS 180-4 section 4.2.2, here in
decimal). -/
def K256 : List Nat :=
  [1116352408, 1899447441, 3049323471, 3921009573, 961987163, 1508970993,
   2453635748, 2870763221, 3624381080, 310598401, 607225278, 1426881987,
   1925078388, 2162078206, 2614888103, 3248222580, 3835390401, 4022224774,
   264347078, 604807628, 770255983, 1249150122, 1555081692, 1996064986,
   2554220882, 2821834349, 2952996808, 3210313671, 3336571891, 3584528711,
   113926993, 338241895, 666307205, 773529912, 1294757372, 1396182291,
   1695183700, 1986661051, 2177026350, 2456956037, 2730485921, 2820302411,
   3259730800, 3345764771, 3516065817, 3600352804, 4094571909, 275423344,
   430227734, 506948616, 659060556, 883997877, 958139571, 1322822218,
   1537002063, 1747873779, 1955562222, 2024104815, 2227730452, 2361852424,
   2428436474, 2756734187, 3204031479, 3329325298]

/-- The SHA-256 initial hash value (FIPS 180-4 section 5.3.3, in
decimal). -/
def H256 : List Nat :=
  [1779033703, 3144134277, 1013904242, 2773480762,
   1359893119, 2600822924, 528734635, 1541459225]

/-- Extend a 16-word message block by `k` schedule words
(`W[t] = sigma1 W[t-2] + W[t-7] + sigma0 W[t-15] + W[t-16]`). -/
def extendW (ws : List Nat) : Nat → List Nat
  | 0 => ws
  | k + 1 =>
    let w := extendW ws k
    let t := w.length
    w ++ [add32 (add32 (smallSigma1 (w.getD (t - 2) 0)) (w.getD (t - 7) 0))
            (add32 (smallSigma0 (w.getD (t - 15) 0)) (w.getD (t - 16) 0))]

/-- One SHA-256 round on the eight working words. -/
def compressStep (s : List Nat) (kw : Nat × Nat) : List Nat :=
  match s with
  | [a, b, c, d, e, f, g, h] =>
    let t1 := add32 h (add32 (bigSigma1 e) (add32 (chFn e f g) (add32 kw.1 kw.2)))
    let t2 := add32 (bigSigma0 a) (majFn a b c)
    [add32 t1 t2, a, b, c, add32 d t1, e, f, g]
  | s => s

/-- Compress one 16-word block into the hash state: 64 rounds, then
word-wise addition into the incoming state. -/
def compressBlock (h : List Nat) (block : List Nat) : List Nat :=
  let ws := extendW block 48
  let out := (K256.zip ws).foldl compressStep h
  (h.zip out).map (fun p => add32 p.1 p.2)

/-- A 64-bit big-endian byte rendering. -/
def be64 (n : Nat) : List Nat :=
  [(n >>> 56) % 256, (n >>> 48) % 256, (n >>> 40) % 256, (n >>> 32) % 256,
   (n >>> 24) % 256, (n >>> 16) % 256, (n >>> 8) % 256, n % 256]

/-- SHA-256 padding: append `0x80`, zero bytes up to 56 modulo 64, and
the 64-bit big-endian bit length. -/
def padMessage (msg : List Nat) : List Nat :=
  let L := msg.length
  let z := (119 - L % 64) % 64
  msg ++ 0x80 :: List.replicate z 0 ++ be64 (L * 8)

/-- Group bytes into 32-bit big-endian words. -/
def bytesToWords : List Nat → List Nat
  | b0 :: b1 :: b2 :: b3 :: rest => (((b0 * 256 + b1) * 256 + b2) * 256 + b3) :: bytesToWords rest
  | _ => []

/-- Split a padded byte string into 16-word blocks (the byte count
doubles as recursion fuel). -/
def toBlocks (fuel : Nat) (l : List Nat) : List (List Nat) :=
  match fuel, l with
  | 0, _ => []
  | _, [] => []
  | f + 1, l => bytesToWords (l.take 64) :: toBlocks f (l.drop 64)

/-- SHA-256 of a byte string, as the digest's 256-bit numeric value. -/
def sha256bytes (msg : List Nat) : Nat :=
  let padded := padMessage msg
  let blocks := toBlocks padded.length padded
  let hfinal := blocks.foldl compressBlock H256
  hfinal.foldl (fun acc w => acc * w32 + w) 0

/-- UTF-8 encoding of one character (`str.encode()` is UTF-8). -/
def utf8Encode (c : Char) : List Nat :=
  let n := c.toNat
  if n < 0x80 then [n]
  else if n < 0x800 then [0xC0 ||| (n >>> 6), 0x80 ||| (n &&& 0x3F)]
  else if n < 0x10000 then
    [0xE0 ||| (n >>> 12), 0x80 ||| ((n >>> 6) &&& 0x3F), 0x80 ||| (n &&& 0x3F)]
  else
    [0xF0 ||| (n >>> 18), 0x80 ||| ((n >>> 12) &&& 0x3F),
     0x80 ||| ((n >>> 6) &&& 0x3F), 0x80 ||| (n &&& 0x3F)]

/-- Embeds `hashlib.sha256(url.encode())`: SHA-256 of the UTF-8 bytes
of the text, as an element of the digest space. -/
def sha256hex : Sha := fun s =>
  ⟨sha256bytes ((s.map utf8Encode).flatten) % SHA_CARD, Nat.mod_lt _ (by norm_num)⟩

/-- Sanity check of the hash embedding against the FIPS 180-4 test
vector: SHA-256 of "abc". -/
theorem sha256hex_abc :
    (sha256hex ("abc".toList)).val =
      0xba7816bf8f01cfea414140de5dae2223b00361a396177a9cb410ff61f20015ad := by
  decide

/-- One lowercase hex character: digits below ten, letters from 'a'
for the rest. -/
def hexChar (d : Fin 16) : Char :=
  if d.val < 10 then Char.ofNat ('0'.toNat + d.val)
  else Char.ofNat ('a'.toNat + (d.val - 10))

/-- The `k` least-significant base-16 digits of `n`, least significant
first. -/
def hexDigitsLE : Nat → Nat → List (Fin 16)
  | 0, _ => []
  | k + 1, n => ⟨n % 16, Nat.mod_lt n (by norm_num)⟩ :: hexDigitsLE k (n / 16)

/-- Renders `.hexdigest()`: the 64-character lowercase-hex rendering of a
digest (most significant digit first, as Python prints it). -/
def hexdigest (d : Fin SHA_CARD) : List Char :=
  ((hexDigitsLE 64 d.val).reverse).map hexChar

/-- Embeds `cache_key_url` (scraper_service lines 35-36):
`"url_quiz_cache:" + quiz_type + ":" + sha256(url).hexdigest()`. -/
def cache_key_url (sha : Sha) (url quizType : List Char) : List Char :=
  "url_quiz_cache:".toList ++ quizType ++ ':' :: hexdigest (sha url)

theorem hexDigitsLE_length : ∀ k n, (hexDigitsLE k n).length = k := by
  intro k
  induction k with
  | zero => intro n; rfl
  | succ k ih => intro n; simp [hexDigitsLE, ih]

theorem hexdigest_length (d : Fin SHA_CARD) : (hexdigest d).length = 64 := by
  simp [hexdigest, hexDigitsLE_length]

theorem hexChar_injective : Function.Injective hexChar := by
  intro a b h
  fin_cases a <;> fin_cases b <;> first | rfl | (exfalso; exact absurd h (by decide))

theorem hexDigitsLE_inj :
    ∀ k m n, m < 16 ^ k → n < 16 ^ k → hexDigitsLE k m = hexDigitsLE k n → m = n := by
  intro k
  induction k with
  | zero =>
    intro m n hm hn _
    simp only [pow_zero, Nat.lt_one_iff] at hm hn
    omega
  | succ k ih =>
    intro m n hm hn h
    simp only [hexDigitsLE, List.cons.injEq, Fin.mk.injEq] at h
    have hm' : m / 16 < 16 ^ k := by
      rw [Nat.div_lt_iff_lt_mul (by norm_num)]
      calc m < 16 ^ (k + 1) := hm
        _ = 16 ^ k * 16 := by ring
    have hn' : n / 16 < 16 ^ k := by
      rw [Nat.div_lt_iff_lt_mul (by norm_num)]
      calc n < 16 ^ (k + 1) := hn
        _ = 16 ^ k * 16 := by ring
    have hdiv : m / 16 = n / 16 := ih (m / 16) (n / 16) hm' hn' h.2
    omega

theorem hexdigest_injective : Function.Injective hexdigest := by
  intro a b h
  have h2 : (hexDigitsLE 64 a.val).reverse = (hexDigitsLE 64 b.val).reverse :=
    List.map_injective_iff.mpr hexChar_injective h
  have h3 : hexDigitsLE 64 a.val = hexDigitsLE 64 b.val :=
    List.reverse_injective h2
  exact Fin.val_injective (hexDigitsLE_inj 64 a.val b.val a.isLt b.isLt h3)

/-- The structure of a cache key determines its components: two keys
agree exactly when their quiz types agree and the digests of their urls
agree.  (The hex part of a key always has length 64, so the split
between the quiz-type segment and the digest segment is unambiguous.) -/
theorem cache_key_url_eq_iff (sha : Sha) (u1 u2 q1 q2 : List Char) :
    cache_key_url sha u1 q1 = cache_key_url sha u2 q2 ↔
      q1 = q2 ∧ sha u1 = sha u2 := by
  constructor
  · intro h
    unfold cache_key_url at h
    rw [List.append_assoc, List.append_assoc] at h
    have h1 : q1 ++ ':' :: hexdigest (sha u1) = q2 ++ ':' :: hexdigest (sha u2) :=
      List.append_cancel_left h
    have hlen : (':' :: hexdigest (sha u1)).length = (':' :: hexdigest (sha u2)).length := by
      simp [hexdigest_length]
    have h2 := List.append_inj' h1 hlen
    refine ⟨h2.1, ?_⟩
    have h3 : hexdigest (sha u1) = hexdigest (sha u2) := by
      have := h2.2
      simpa using this
    exact hexdigest_injective h3
  · rintro ⟨hq, hs⟩
    unfold cache_key_url
    rw [hq, hs]

/-! ## Redis cache state and the cache utilities
(src/services/scraper_service.py lines 38-53)

`redis_client.setex(key, ttl, json.dumps(quiz_data))` stores a byte
string that expires `ttl` seconds after the write;
`redis_client.get(key)` returns the live value or `None`.  The store is
modelled as an association list (newest entry first, as `setex`
overwrites) keyed by the key string, with an absolute expiry instant
per entry.  The stored bytes either are `json.dumps` output of a quiz
dict — which `json.loads` decodes back — or corrupt bytes on which
`json.loads` raises `json.JSONDecodeError`. -/

/-- The result dict built by `generate_quiz_from_url` (scraper_service
lines 143-151).  `scraped_at` (`datetime.utcnow().isoformat()`) is
modelled as the numeric timestamp of the generation. -/
structure QuizResult where
  topic : String
  difficulty : String
  quiz_type : List Char
  source_url : List Char
  scraped_at : Nat
  content_excerpt : List Char
  quiz : String
  deriving DecidableEq, Repr

/-- Bytes stored under a cache key: `json.dumps` output of a quiz
dict; bytes that are valid UTF-8 but not valid JSON; or bytes that are
not valid UTF-8 at all (the index `n` distinguishes distinct corrupt
payloads). -/
inductive Raw
  | enc (d : QuizResult)
  | corrupt (n : Nat)
  | badUtf8 (n : Nat)
  deriving DecidableEq, Repr

/-- Exceptions `json.loads` raises on undecodable bytes:
`json.JSONDecodeError` when the bytes decode as UTF-8 but are not
valid JSON, and `UnicodeDecodeError` (not a subclass of
`json.JSONDecodeError`) when the bytes are not valid UTF-8. -/
inductive JsonErr
  | jsonDecodeError
  | unicodeDecodeError
  deriving DecidableEq, Repr

/-- Embeds `json.loads` on stored cache bytes: decodes `json.dumps`
output, raises `json.JSONDecodeError` on valid-UTF-8 non-JSON bytes
and `UnicodeDecodeError` on invalid-UTF-8 bytes. -/
def json_loads : Raw → Except JsonErr QuizResult
  | .enc d => .ok d
  | .corrupt _ => .error .jsonDecodeError
  | .badUtf8 _ => .error .unicodeDecodeError

/-- Redis contents: (key, stored bytes, absolute expiry second),
newest write first. -/
abbrev RedisState : Type := List (List Char × Raw × Nat)

/-- Embeds `redis_client.get(key)` at time `now`: first entry for the key, if
still live (`now` before its expiry). -/
def redis_get (st : RedisState) (now : Nat) (k : List Char) : Option Raw :=
  match st.find? (fun e => e.1 == k) with
  | some (_, v, exp) => if now < exp then some v else none
  | none => none

/-- Embeds `redis_client.setex(key, ttl, value)` at time `now`: the new entry
shadows any previous entry for the key and expires at `now + ttl`. -/
def redis_setex (st : RedisState) (k : List Char) (ttl : Nat) (v : Raw)
    (now : Nat) : RedisState :=
  (k, v, now + ttl) :: st

/-- Embeds `CACHE_TTL` (scraper_service line 32). -/
def CACHE_TTL : Nat := 3600

/-- Embeds `get_cached_quiz` (scraper_service lines 38-48): fetch the bytes
under `cache_key_url(url, quiz_type)`; on a hit, `json.loads` them.
The `except` clause catches exactly `json.JSONDecodeError`, returning
`None` in that case; a `UnicodeDecodeError` from invalid-UTF-8 bytes
is not caught and propagates to the caller.  Returns `None` on a
miss. -/
def get_cached_quiz (sha : Sha) (st : RedisState) (now : Nat)
    (url quizType : List Char) : Except JsonErr (Option QuizResult) :=
  match redis_get st now (cache_key_url sha url quizType) with
  | some raw =>
    match json_loads raw with
    | .ok d => .ok (some d)
    | .error .jsonDecodeError => .ok none
    | .error .unicodeDecodeError => .error .unicodeDecodeError
  | none => .ok none

/-- Embeds `set_cached_quiz` (scraper_service lines 50-53): store
`json.dumps(quiz_data)` under the key with `setex` and TTL `ttl`. -/
def set_cached_quiz (sha : Sha) (st : RedisState) (now : Nat)
    (url quizType : List Char) (d : QuizResult) (ttl : Nat) : RedisState :=
  redis_setex st (cache_key_url sha url quizType) ttl (.enc d) now

theorem redis_get_setex_live (st : RedisState) (k : List Char) (ttl : Nat)
    (v : Raw) (now t : Nat) (h : t < now + ttl) :
    redis_get (redis_setex st k ttl v now) t k = some v := by
  simp [redis_get, redis_setex, List.find?, h]

/-! ## Difficulty estimation (src/services/scraper_service.py lines 86-98)

`estimate_difficulty` buckets the Flesch-Kincaid grade of the text,
short-circuiting texts of fewer than 100 whitespace-separated words to
"easy".  `flesch_kincaid_grade` is an external library (`textstat`)
kept as an oracle `fk`; exceptions from it fall back to "medium", so
the oracle is total. -/

/-- Python `str.split()` with no argument: split on runs of whitespace,
discarding empty words.  Space, tab and newline cover the whitespace
characters that matter here. -/
def pySplit (s : List Char) : List (List Char) :=
  let step := fun (acc : List (List Char) × List Char) (ch : Char) =>
    if ch = ' ' ∨ ch = '\t' ∨ ch = '\n' then
      match acc.2 with
      | [] => (acc.1, [])
      | cur => (acc.1 ++ [cur.reverse], [])
    else (acc.1, ch :: acc.2)
  match s.foldl step ([], []) with
  | (ws, []) => ws
  | (ws, cur) => ws ++ [cur.reverse]

/-- Embeds `estimate_difficulty` (scraper_service lines 86-98): "easy" for
texts under 100 words, else bucket the grade at 6 and 10. -/
def estimate_difficulty (fk : List Char → ℚ) (text : List Char) : String :=
  if (pySplit text).length < 100 then "easy"
  else if fk text < 6 then "easy"
  else if fk text < 10 then "medium"
  else "hard"

/-! ## Snippet trimming (src/services/scraper_service.py lines 27-30, 136-138)

```
MAX_SNIPPET = 1600
MIN_SNIPPET = 1400
end_idx = clean_text.rfind(".", MIN_SNIPPET, MAX_SNIPPET)
snippet = clean_text[:end_idx + 1] if end_idx != -1 else clean_text[:1500]
```
Python `s.rfind(sub, start, end)` searches `s[start:end]` — offsets
`start ≤ i < min end (len s)` — and returns the highest offset at
which `sub` occurs, `-1` if none (modelled as `Option Nat`). -/

def MAX_SNIPPET : Nat := 1600
def MIN_SNIPPET : Nat := 1400

/-- Offsets `lo ≤ i < k` scanned from the top: the largest `i` with
`s[i] = c`, if any. -/
def rfindAux (s : List Char) (c : Char) (lo : Nat) : Nat → Option Nat
  | 0 => none
  | k + 1 =>
    if lo ≤ k ∧ s.getD k ' ' = c then some k
    else rfindAux s c lo k

/-- Python `s.rfind(c, lo, hi)` for a single-character needle. -/
def str_rfind (s : List Char) (c : Char) (lo hi : Nat) : Option Nat :=
  rfindAux s c lo (min hi s.length)

/-- The snippet-trimming expression of `generate_quiz_from_url`
(scraper_service lines 136-138). -/
def snippet (cleanText : List Char) : List Char :=
  match str_rfind cleanText '.' MIN_SNIPPET MAX_SNIPPET with
  | some endIdx => cleanText.take (endIdx + 1)
  | none => cleanText.take 1500

theorem rfindAux_some (s : List Char) (c : Char) (lo : Nat) :
    ∀ k i, rfindAux s c lo k = some i →
      lo ≤ i ∧ i < k ∧ s.getD i ' ' = c ∧
        ∀ j, i < j → j < k → lo ≤ j → s.getD j ' ' ≠ c := by
  intro k
  induction k with
  | zero => intro i h; exact absurd h (by simp [rfindAux])
  | succ k ih =>
    intro i h
    rw [rfindAux] at h
    by_cases hc : lo ≤ k ∧ s.getD k ' ' = c
    · rw [if_pos hc] at h
      injection h with h
      subst h
      exact ⟨hc.1, Nat.lt_succ_self _, hc.2, fun j hj1 hj2 _ _ => by omega⟩
    · rw [if_neg hc] at h
      obtain ⟨h1, h2, h3, h4⟩ := ih i h
      refine ⟨h1, Nat.lt_succ_of_lt h2, h3, ?_⟩
      intro j hj1 hj2 hj3 hj4
      rcases Nat.lt_succ_iff_lt_or_eq.mp hj2 with hj | hj
      · exact h4 j hj1 hj hj3 hj4
      · subst hj
        exact hc ⟨hj3, hj4⟩

theorem rfindAux_none (s : List Char) (c : Char) (lo : Nat) :
    ∀ k, rfindAux s c lo k = none →
      ∀ j, j < k → lo ≤ j → s.getD j ' ' ≠ c := by
  intro k
  induction k with
  | zero => intro _ j hj; omega
  | succ k ih =>
    intro h j hj1 hj2 hj3
    rw [rfindAux] at h
    by_cases hc : lo ≤ k ∧ s.getD k ' ' = c
    · rw [if_pos hc] at h; exact Option.noConfusion h
    · rw [if_neg hc] at h
      rcases Nat.lt_succ_iff_lt_or_eq.mp hj1 with hj | hj
      · exact ih h j hj hj2 hj3
      · subst hj
        exact hc ⟨hj2, hj3⟩

/-- The snippet is never longer than `MAX_SNIPPET = 1600` characters. -/
theorem snippet_length_le (s : List Char) : (snippet s).length ≤ 1600 := by
  unfold snippet
  cases h : str_rfind s '.' MIN_SNIPPET MAX_SNIPPET with
  | none =>
    simp only [List.length_take]
    omega
  | some i =>
    obtain ⟨_, hi, _, _⟩ := rfindAux_some s '.' MIN_SNIPPET _ i h
    have hM : MAX_SNIPPET = 1600 := rfl
    rw [hM] at hi
    simp only [List.length_take]
    omega

/-! ## The URL-to-quiz pipeline: `generate_quiz_from_url`
(src/services/scraper_service.py lines 125-159)

```
cached = get_cached_quiz(url, quiz_type)
if cached: return cached
html = fetch_article_html(url)          # may raise
clean_text = extract_clean_text(html)   # may raise
topic = classify_topic(clean_text)      # catches its own errors
difficulty = estimate_difficulty(clean_text)
end_idx = clean_text.rfind(".", MIN_SNIPPET, MAX_SNIPPET)
snippet = clean_text[:end_idx + 1] if end_idx != -1 else clean_text[:1500]
prompt = f"Generate a {quiz_type} quiz for this topic: ..."
quiz = call_openai(prompt)              # may raise tenacity.RetryError
result = {...}
set_cached_quiz(url, quiz_type, result)
return result
```
The surrounding `try/except` logs and re-raises, so exceptions
propagate unchanged.  Network fetching, HTML cleaning, topic
classification and grade scoring are external effects collected in an
environment record.  `classify_topic` (lines 100-107) catches every
exception and falls back to "General Knowledge", so it is a total
oracle; its internal `call_openai` traffic is for classification, not
quiz generation, and is not counted among generate calls.  Successive
quiz-generation `call_openai` invocations draw their attempts from one
global attempt stream indexed by `g`, so that upstream invocations can
be counted across callers; a decoded cache dict always has seven keys,
so the Python truthiness test `if cached:` is a plain hit test. -/

/-- Exceptions of `fetch_article_html` (lines 63-73): the `ValueError`
for an invalid URL, or a failed/raised `requests.get`. -/
inductive FetchErr
  | invalidUrl
  | requestFailed
  deriving DecidableEq, Repr

/-- Exception of `extract_clean_text` (lines 75-83). -/
inductive ExtractErr
  | parseFailed
  deriving DecidableEq, Repr

/-- What a `generate_quiz_from_url` call can raise: an uncaught decode
error escaping `get_cached_quiz`, a fetch error, an extraction error,
or the `tenacity.RetryError` escaping `call_openai` (carrying the
final attempt's exception).  The surrounding `try/except` logs and
re-raises, so each propagates unchanged. -/
inductive GenErr
  | cacheDecode (e : JsonErr)
  | fetch (e : FetchErr)
  | extract (e : ExtractErr)
  | upstreamRetryError (last : OpenAIErr)
  deriving DecidableEq, Repr

/-- External collaborators of the pipeline.  `genBackend p n` is the
outcome of global attempt `n` of `openai.ChatCompletion.create` on
prompt `p`; `rand` the `random.random()` stream of the retry backoff. -/
structure Env where
  fetch : List Char → Except FetchErr (List Char)
  extract : List Char → Except ExtractErr (List Char)
  classify : List Char → String
  fk : List Char → ℚ
  genBackend : String → Nat → Except OpenAIErr String
  rand : Nat → ℚ

/-- The prompt built at line 140. -/
def mkPrompt (quizType : List Char) (topic difficulty : String)
    (snip : List Char) : String :=
  "Generate a " ++ String.mk quizType ++ " quiz for this topic: " ++ topic ++
    ", difficulty: " ++ difficulty ++ ". Use this content:\n" ++ String.mk snip

/-- The result dict of lines 143-151. -/
def mkResult (topic difficulty : String) (quizType url : List Char)
    (now : Nat) (snip : List Char) (quiz : String) : QuizResult :=
  { topic := topic, difficulty := difficulty, quiz_type := quizType,
    source_url := url, scraped_at := now, content_excerpt := snip,
    quiz := quiz }

/-- Embeds `generate_quiz_from_url` (lines 125-159) as a state transformer:
given the redis contents `st`, the time `now` and the next free global
upstream attempt index `g`, returns (outcome, new redis contents, next
attempt index, number of quiz-generation `call_openai` invocations
performed — the line-141 call only). -/
def generate_quiz_from_url (sha : Sha) (env : Env) (st : RedisState)
    (now g : Nat) (url quizType : List Char) :
    Except GenErr QuizResult × RedisState × Nat × Nat :=
  match get_cached_quiz sha st now url quizType with
  | .error e => (.error (.cacheDecode e), st, g, 0)
  | .ok (some cached) => (.ok cached, st, g, 0)
  | .ok none =>
    match env.fetch url with
    | .error e => (.error (.fetch e), st, g, 0)
    | .ok html =>
      match env.extract html with
      | .error e => (.error (.extract e), st, g, 0)
      | .ok cleanText =>
        let topic := env.classify cleanText
        let difficulty := estimate_difficulty env.fk cleanText
        let snip := snippet cleanText
        let prompt := mkPrompt quizType topic difficulty snip
        match call_openai_from (env.genBackend prompt) env.rand g with
        | (.retryError e, g') => (.error (.upstreamRetryError e), st, g', 1)
        | (.ok quiz, g') =>
          let r := mkResult topic difficulty quizType url now snip quiz
          (.ok r, set_cached_quiz sha st now url quizType r CACHE_TTL, g', 1)

/-! ## Concurrent executions of the pipeline

The spec's resolve path is `generate_quiz_from_url`; several requests
for the same url may run it concurrently (the FastAPI handlers of
`src/routers/quiz_router.py` serve requests in parallel).  The source
synchronizes nothing: each execution performs its cache lookup, then —
separated by the blocking network work (article fetch, OpenAI call) —
its upstream call and cache write.  The interleaving model splits each
caller at that blocking boundary: phase one runs the cache lookup and
the local text work, phase two the upstream call and the cache write.
Shared state is the redis contents, the global attempt counter and the
count of quiz-generation upstream invocations. -/

/-- A caller's control point: not yet started; cache miss observed and
clean text computed, upstream call pending; or finished. -/
inductive CallerPhase
  | start
  | pendingUpstream (cleanText : List Char)
  | done (r : Except GenErr QuizResult)
  deriving Repr

/-- State shared by all concurrent callers. -/
structure Shared where
  st : RedisState
  g : Nat
  calls : Nat
  deriving DecidableEq, Repr

/-- One atomic step of a caller of `generate_quiz_from_url url quizType`
(phases as described above; a finished caller does not move). -/
def callerStep (sha : Sha) (env : Env) (now : Nat) (url quizType : List Char) :
    CallerPhase → Shared → CallerPhase × Shared
  | .start, sh =>
    match get_cached_quiz sha sh.st now url quizType with
    | .error e => (.done (.error (.cacheDecode e)), sh)
    | .ok (some cached) => (.done (.ok cached), sh)
    | .ok none =>
      match env.fetch url with
      | .error e => (.done (.error (.fetch e)), sh)
      | .ok html =>
        match env.extract html with
        | .error e => (.done (.error (.extract e)), sh)
        | .ok cleanText => (.pendingUpstream cleanText, sh)
  | .pendingUpstream cleanText, sh =>
    let topic := env.classify cleanText
    let difficulty := estimate_difficulty env.fk cleanText
    let snip := snippet cleanText
    let prompt := mkPrompt quizType topic difficulty snip
    match call_openai_from (env.genBackend prompt) env.rand sh.g with
    | (.retryError e, g') =>
      (.done (.error (.upstreamRetryError e)), ⟨sh.st, g', sh.calls + 1⟩)
    | (.ok quiz, g') =>
      let r := mkResult topic difficulty quizType url now snip quiz
      (.done (.ok r),
        ⟨set_cached_quiz sha sh.st now url quizType r CACHE_TTL, g', sh.calls + 1⟩)
  | .done r, sh => (.done r, sh)

/-- Two concurrent callers for the same url and quiz type. -/
structure TwoCallers where
  c0 : CallerPhase
  c1 : CallerPhase
  sh : Shared
  deriving Repr

/-- Run the scheduled caller one step. -/
def schedStep (sha : Sha) (env : Env) (now : Nat) (url quizType : List Char)
    (t : TwoCallers) (i : Fin 2) : TwoCallers :=
  if i = 0 then
    let (p, sh) := callerStep sha env now url quizType t.c0 t.sh
    ⟨p, t.c1, sh⟩
  else
    let (p, sh) := callerStep sha env now url quizType t.c1 t.sh
    ⟨t.c0, p, sh⟩

/-- Run a schedule (a list of caller choices) from a configuration. -/
def runSched (sha : Sha) (env : Env) (now : Nat) (url quizType : List Char) :
    List (Fin 2) → TwoCallers → TwoCallers
  | [], t => t
  | i :: rest, t =>
    runSched sha env now url quizType rest (schedStep sha env now url quizType t i)

/-- Both callers fresh, an empty cache, attempt counter and call
counter at zero. -/
def initTwo : TwoCallers := ⟨.start, .start, ⟨[], 0, 0⟩⟩

/-! ## Rate limiter: `limiter.allow_request`

`src/main.py` (lines 57-62) and `src/routers/quiz_router.py` (lines
127-140, 144-155) gate requests with
`if not limiter.allow_request(client_ip): ...429...`, importing
`limiter` from `services.rate_limiter` — a module whose implementation
is not in the repository's source tree.  Only the call sites are
available, so the limiter itself is reconstructed from the spec. -/

/-- Modelled from the spec: the implementation of
`services.rate_limiter.limiter.allow_request`, which is missing from
the source tree (only its call sites in `src/main.py` and
`src/routers/quiz_router.py` exist).  Spec §4.3: per-identity state is
a fixed window `{window_start, request_count}`, created lazily on the
identity's first request. -/
structure RateWindow where
  windowStart : Nat
  count : Nat
  deriving DecidableEq, Repr

/-- Modelled from the spec: `allow_request` for one identity.  Spec
§4.3: a fixed window of `K` requests per `W` seconds; when the window
elapses the counter resets; within the window the check admits and
counts the request while the count is below `K`, and returns `false`
(a normal outcome, not an error) once the limit is reached.  Takes the
identity's current window state (`none` before its first request) and
the current time; returns the decision and the updated state. -/
def allow_request (K W : Nat) (st : Option RateWindow) (now : Nat) :
    Bool × RateWindow :=
  match st with
  | none => (true, ⟨now, 1⟩)
  | some w =>
    if W ≤ now - w.windowStart then (true, ⟨now, 1⟩)
    else if w.count < K then (true, ⟨w.windowStart, w.count + 1⟩)
    else (false, w)

/-- A sequence of admission checks for one identity at the given
times, threading the window state; returns the decisions and the final
state. -/
def runChecks (K W : Nat) : Option RateWindow → List Nat → List Bool × Option RateWindow
  | st, [] => ([], st)
  | st, t :: ts =>
    let r := allow_request K W st t
    let rest := runChecks K W (some r.2) ts
    (r.1 :: rest.1, rest.2)

theorem runChecks_within_window (K W t0 : Nat) :
    ∀ n c ts, c + n = K → ts.length = n + 1 →
      (∀ t ∈ ts, t0 ≤ t ∧ t < t0 + W) →
      runChecks K W (some ⟨t0, c⟩) ts =
        (List.replicate n true ++ [false], some ⟨t0, K⟩) := by
  intro n
  induction n with
  | zero =>
    intro c ts hc hlen hin
    match ts, hlen with
    | [t], _ =>
      obtain ⟨ht1, ht2⟩ := hin t (by simp)
      have hw : ¬ W ≤ t - t0 := by omega
      have hcK : ¬ c < K := by omega
      simp only [runChecks, allow_request, hw, if_false, hcK, if_neg]
      simp [hw, hcK]
      omega
  | succ n ih =>
    intro c ts hc hlen hin
    match ts, hlen with
    | t :: ts', hlen =>
      obtain ⟨ht1, ht2⟩ := hin t (by simp)
      have hw : ¬ W ≤ t - t0 := by omega
      have hcK : c < K := by omega
      have hrest := ih (c + 1) ts' (by omega) (by simpa using hlen)
        (fun u hu => hin u (by simp [hu]))
      simp [runChecks, allow_request, hw, hcK, hrest, List.replicate_succ]

/-! ## Concrete fixtures for witnesses and counterexamples -/

/-- A concrete digest function: every url hashes to digest 0. -/
def zeroSha : Sha := fun _ => 0

/-- A backend whose every attempt raises an authentication failure. -/
def authBackend : Nat → Except OpenAIErr String := fun _ => .error .authFailure

/-- A degenerate random stream. -/
def zeroRand : Nat → ℚ := fun _ => 0

/-- The url used by concrete runs. -/
def testUrl : List Char := "http://e.x/a".toList

/-- The quiz type used by concrete runs. -/
def mcq : List Char := "MCQ".toList

/-- An environment in which every stage succeeds; the `k`-th upstream
attempt answers with `k` repetitions of 'q', so distinct upstream calls
return distinct payloads. -/
def okEnv : Env :=
  { fetch := fun _ => .ok "h".toList
    extract := fun _ => .ok "content".toList
    classify := fun _ => "Tech"
    fk := fun _ => 5
    genBackend := fun _ k => .ok (String.mk (List.replicate k 'q'))
    rand := fun _ => 0 }

/-- As `okEnv`, but every upstream attempt fails with a 5xx. -/
def failEnv : Env :=
  { okEnv with genBackend := fun _ _ => .error .serverError }

/-! ## Claim C2 -/

/-- Claim C2, counterexample.  The claim says a non-transient upstream
failure (authentication failure) fails immediately with no retry
attempt and propagates a distinct error kind.  `call_openai`'s retry
decorator has no retryable-error predicate, so with a backend raising
an authentication failure on every attempt the call makes 3 attempts,
not 1, and surfaces the generic `tenacity.RetryError`. -/
theorem claim_C2_cex :
    (call_openai authBackend zeroRand).2.1 = 3 ∧
    (call_openai authBackend zeroRand).2.1 ≠ 1 ∧
    (call_openai authBackend zeroRand).1 = .retryError .authFailure := by
  refine ⟨rfl, by decide, rfl⟩

/-- Claim C2, amended.  `call_openai` retries every failure alike:
whatever exceptions the backend raises — authentication failures and
invalid-request errors included — the call makes 3 attempts and then
surfaces a `tenacity.RetryError` wrapping the final attempt's
exception, one error kind for all failure causes. -/
theorem claim_C2 (backend : Nat → Except OpenAIErr String) (rand : Nat → ℚ)
    (e : Nat → OpenAIErr) (hb : ∀ k, backend k = .error (e k)) :
    (call_openai backend rand).1 = .retryError (e 2) ∧
    (call_openai backend rand).2.1 = 3 := by
  have h := retryRun_all_error (fun n => waitRandom 1 2 (rand n)) backend 0
    (e 0) (e 1) (e 2) (hb 0) (hb 1) (hb 2)
  rw [call_openai, h]
  exact ⟨rfl, rfl⟩

/-- Claim C2, witness: the amended statement at the concrete
always-auth-failing backend. -/
theorem claim_C2_witness :
    (call_openai authBackend zeroRand).1 = .retryError OpenAIErr.authFailure ∧
    (call_openai authBackend zeroRand).2.1 = 3 :=
  claim_C2 authBackend zeroRand (fun _ => .authFailure) (fun _ => rfl)

/-! ## Claim C3 -/

/-- Claim C3: every `call_openai` invocation makes at most 3 attempts
in total, and every backoff sleep it inserts before a retry lies in
the interval `[1, 2]`: `wait_random(min=1, max=2)` maps the uniform
`random.random()` sample `u ∈ [0, 1]` affinely onto `[1, 2]`. -/
theorem claim_C3 (backend : Nat → Except OpenAIErr String) (rand : Nat → ℚ)
    (hr : ∀ n, 0 ≤ rand n ∧ rand n ≤ 1) :
    (call_openai backend rand).2.1 ≤ 3 ∧
    ∀ w ∈ (call_openai backend rand).2.2, 1 ≤ w ∧ w ≤ 2 := by
  constructor
  · exact retryRun_attempts_le _ _ 3 0
  · intro w hw
    obtain ⟨m, rfl⟩ := retryRun_waits_mem _ _ 3 0 w hw
    obtain ⟨h0, h1⟩ := hr m
    unfold waitRandom
    constructor <;> nlinarith

/-- Claim C3, witness at the concrete auth-failing backend and the
all-zeros random stream. -/
theorem claim_C3_witness :
    (call_openai authBackend zeroRand).2.1 ≤ 3 ∧
    ∀ w ∈ (call_openai authBackend zeroRand).2.2, 1 ≤ w ∧ w ≤ 2 :=
  claim_C3 authBackend zeroRand (fun _ => by norm_num [zeroRand])

/-! ## Claim C4 -/

/-- Claim C4: when all 3 upstream attempts of the quiz-generation call
fail, the pipeline surfaces the `tenacity.RetryError` kind — an error
constructor distinct from every single-attempt (non-retried) failure
the pipeline can surface, namely the fetch and extraction errors — and
writes no cache entry. -/
theorem claim_C4 (sha : Sha) (env : Env) (st : RedisState) (now g : Nat)
    (url quizType html text : List Char) (e : Nat → OpenAIErr)
    (hmiss : get_cached_quiz sha st now url quizType = .ok none)
    (hf : env.fetch url = .ok html) (hx : env.extract html = .ok text)
    (hb : ∀ p k, env.genBackend p k = .error (e k)) :
    (generate_quiz_from_url sha env st now g url quizType).1 =
      .error (.upstreamRetryError (e (g + 2))) ∧
    (∀ fe, GenErr.upstreamRetryError (e (g + 2)) ≠ .fetch fe) ∧
    (∀ xe, GenErr.upstreamRetryError (e (g + 2)) ≠ .extract xe) ∧
    (generate_quiz_from_url sha env st now g url quizType).2.1 = st := by
  have h := retryRun_all_error (fun n => waitRandom 1 2 (env.rand n))
    (env.genBackend (mkPrompt quizType (env.classify text)
      (estimate_difficulty env.fk text) (snippet text))) g
    (e g) (e (g + 1)) (e (g + 2)) (hb _ g) (hb _ (g + 1)) (hb _ (g + 2))
  refine ⟨?_, fun fe h' => GenErr.noConfusion h', fun xe h' => GenErr.noConfusion h', ?_⟩ <;>
    simp [generate_quiz_from_url, hmiss, hf, hx, call_openai_from, h]

/-- Claim C4, witness: the concrete all-5xx environment, empty cache. -/
theorem claim_C4_witness :
    (generate_quiz_from_url zeroSha failEnv [] 0 0 testUrl mcq).1 =
      .error (.upstreamRetryError (OpenAIErr.serverError)) ∧
    (∀ fe, GenErr.upstreamRetryError OpenAIErr.serverError ≠ .fetch fe) ∧
    (∀ xe, GenErr.upstreamRetryError OpenAIErr.serverError ≠ .extract xe) ∧
    (generate_quiz_from_url zeroSha failEnv [] 0 0 testUrl mcq).2.1 = [] :=
  claim_C4 zeroSha failEnv [] 0 0 testUrl mcq "h".toList "content".toList
    (fun _ => .serverError) rfl rfl rfl (fun _ _ => rfl)

/-! ## Claim C5 -/

/-- A miss makes the pipeline's outcome and its upstream traffic
independent of the rest of the cache contents. -/
theorem generate_miss_congr (sha : Sha) (env : Env) (st st' : RedisState)
    (now g : Nat) (url quizType : List Char)
    (h : get_cached_quiz sha st now url quizType = .ok none)
    (h' : get_cached_quiz sha st' now url quizType = .ok none) :
    (generate_quiz_from_url sha env st now g url quizType).1 =
      (generate_quiz_from_url sha env st' now g url quizType).1 ∧
    (generate_quiz_from_url sha env st now g url quizType).2.2 =
      (generate_quiz_from_url sha env st' now g url quizType).2.2 := by
  unfold generate_quiz_from_url
  rw [h, h']
  cases hF : env.fetch url with
  | error e => simp [hF]
  | ok html =>
    cases hX : env.extract html with
    | error e => simp [hF, hX]
    | ok text =>
      rcases hco : call_openai_from (env.genBackend (mkPrompt quizType
        (env.classify text) (estimate_difficulty env.fk text) (snippet text)))
        env.rand g with ⟨s, g2⟩
      cases s <;> simp [hF, hX, hco]

/-- Claim C5, counterexample.  The claim says every undecodable stored
payload is treated as a miss and never raises.  The `except` clause of
`get_cached_quiz` catches exactly `json.JSONDecodeError`; stored bytes
that are not valid UTF-8 make `json.loads` raise `UnicodeDecodeError`,
which is not a `json.JSONDecodeError`, so the read with such an entry
under the key propagates the decode error instead of returning the
miss result that an absent entry produces. -/
theorem claim_C5_cex :
    get_cached_quiz zeroSha [(cache_key_url zeroSha testUrl mcq, Raw.badUtf8 0, 10)] 0 testUrl mcq =
      .error .unicodeDecodeError ∧
    get_cached_quiz zeroSha [(cache_key_url zeroSha testUrl mcq, Raw.badUtf8 0, 10)] 0 testUrl mcq ≠
      .ok none ∧
    get_cached_quiz zeroSha [] 0 testUrl mcq = .ok none := by
  refine ⟨rfl, ?_, rfl⟩
  intro h
  rw [show get_cached_quiz zeroSha
      [(cache_key_url zeroSha testUrl mcq, Raw.badUtf8 0, 10)] 0 testUrl mcq =
      .error .unicodeDecodeError from rfl] at h
  exact Except.noConfusion h

/-- Claim C5, amended.  Only the JSON level of decoding is tolerated:
when the stored bytes are valid UTF-8 but not valid JSON, `json.loads`
raises `json.JSONDecodeError`, the `except` clause catches it, and
`get_cached_quiz` returns `None` exactly as when nothing is stored, so
the pipeline regenerates — its outcome, final attempt index and
upstream call count are those of a run against a cache with no entry.
But when the stored bytes are not valid UTF-8, `json.loads` raises
`UnicodeDecodeError`, which the `except` clause does not catch, and
`get_cached_quiz` propagates the decode error to its caller instead of
treating the entry as a miss. -/
theorem claim_C5 (sha : Sha) (st st2 : RedisState) (now : Nat)
    (url quizType : List Char) (n m : Nat)
    (hc : redis_get st now (cache_key_url sha url quizType) = some (.corrupt n))
    (hu : redis_get st2 now (cache_key_url sha url quizType) = some (.badUtf8 m)) :
    get_cached_quiz sha st now url quizType = .ok none ∧
    get_cached_quiz sha [] now url quizType = .ok none ∧
    (∀ env g,
      (generate_quiz_from_url sha env st now g url quizType).1 =
        (generate_quiz_from_url sha env [] now g url quizType).1 ∧
      (generate_quiz_from_url sha env st now g url quizType).2.2 =
        (generate_quiz_from_url sha env [] now g url quizType).2.2) ∧
    get_cached_quiz sha st2 now url quizType = .error .unicodeDecodeError := by
  have hget : get_cached_quiz sha st now url quizType = .ok none := by
    simp [get_cached_quiz, hc, json_loads]
  refine ⟨hget, rfl,
    fun env g => generate_miss_congr sha env st [] now g url quizType hget rfl, ?_⟩
  simp [get_cached_quiz, hu, json_loads]

/-- Claim C5, witness: one store holding valid-UTF-8 non-JSON bytes
under the key (treated as a miss and regenerated) and one holding
invalid-UTF-8 bytes (the decode error propagates), both unexpired at
the read. -/
theorem claim_C5_witness :
    get_cached_quiz zeroSha [(cache_key_url zeroSha testUrl mcq, Raw.corrupt 0, 10)] 0 testUrl mcq = .ok none ∧
    get_cached_quiz zeroSha [] 0 testUrl mcq = .ok none ∧
    (generate_quiz_from_url zeroSha okEnv [(cache_key_url zeroSha testUrl mcq, Raw.corrupt 0, 10)] 0 0 testUrl mcq).1 =
      (generate_quiz_from_url zeroSha okEnv [] 0 0 testUrl mcq).1 ∧
    (generate_quiz_from_url zeroSha okEnv [(cache_key_url zeroSha testUrl mcq, Raw.corrupt 0, 10)] 0 0 testUrl mcq).2.2 =
      (generate_quiz_from_url zeroSha okEnv [] 0 0 testUrl mcq).2.2 ∧
    get_cached_quiz zeroSha [(cache_key_url zeroSha testUrl mcq, Raw.badUtf8 1, 10)] 0 testUrl mcq =
      .error .unicodeDecodeError := by
  have h := claim_C5 zeroSha [(cache_key_url zeroSha testUrl mcq, Raw.corrupt 0, 10)]
    [(cache_key_url zeroSha testUrl mcq, Raw.badUtf8 1, 10)] 0 testUrl mcq 0 1
    (by simp [redis_get, List.find?]) (by simp [redis_get, List.find?])
  exact ⟨h.1, h.2.1, (h.2.2.1 okEnv 0).1, (h.2.2.1 okEnv 0).2, h.2.2.2⟩

/-! ## Claim C6 -/

/-- Claim C6: a resolve whose upstream call exhausts its attempts
leaves the cache exactly as it was (no entry written for the
fingerprint), and an immediately following resolve for the same url
and quiz type runs the pipeline afresh — it performs its own
quiz-generation `call_openai` invocation instead of replaying a
cached failure. -/
theorem claim_C6 (sha : Sha) (env : Env) (st : RedisState) (now g : Nat)
    (url quizType html text : List Char) (e : Nat → OpenAIErr)
    (hmiss : get_cached_quiz sha st now url quizType = .ok none)
    (hf : env.fetch url = .ok html) (hx : env.extract html = .ok text)
    (hb : ∀ p k, k < g + 3 → env.genBackend p k = .error (e k)) :
    (∃ e', (generate_quiz_from_url sha env st now g url quizType).1 =
      .error (.upstreamRetryError e')) ∧
    (generate_quiz_from_url sha env st now g url quizType).2.1 = st ∧
    (generate_quiz_from_url sha env st now
      (generate_quiz_from_url sha env st now g url quizType).2.2.1 url quizType).2.2.2 = 1 := by
  have h := retryRun_all_error (fun n => waitRandom 1 2 (env.rand n))
    (env.genBackend (mkPrompt quizType (env.classify text)
      (estimate_difficulty env.fk text) (snippet text))) g
    (e g) (e (g + 1)) (e (g + 2))
    (hb _ g (by omega)) (hb _ (g + 1) (by omega)) (hb _ (g + 2) (by omega))
  have hfirst : generate_quiz_from_url sha env st now g url quizType =
      (.error (.upstreamRetryError (e (g + 2))), st, g + 3, 1) := by
    simp [generate_quiz_from_url, hmiss, hf, hx, call_openai_from, h]
  refine ⟨⟨e (g + 2), by rw [hfirst]⟩, by rw [hfirst], ?_⟩
  rw [hfirst]
  show (generate_quiz_from_url sha env st now (g + 3) url quizType).2.2.2 = 1
  rcases hco : call_openai_from (env.genBackend (mkPrompt quizType
    (env.classify text) (estimate_difficulty env.fk text) (snippet text)))
    env.rand (g + 3) with ⟨s, g2⟩
  cases s <;> simp [generate_quiz_from_url, hmiss, hf, hx, hco]

/-- Claim C6, witness: the all-5xx environment on an empty cache; the
follow-up resolve makes its own upstream call. -/
theorem claim_C6_witness :
    (∃ e', (generate_quiz_from_url zeroSha failEnv [] 0 0 testUrl mcq).1 =
      .error (.upstreamRetryError e')) ∧
    (generate_quiz_from_url zeroSha failEnv [] 0 0 testUrl mcq).2.1 = [] ∧
    (generate_quiz_from_url zeroSha failEnv [] 0
      (generate_quiz_from_url zeroSha failEnv [] 0 0 testUrl mcq).2.2.1 testUrl mcq).2.2.2 = 1 :=
  claim_C6 zeroSha failEnv [] 0 0 testUrl mcq "h".toList "content".toList
    (fun _ => .serverError) rfl rfl rfl (fun _ _ _ => rfl)

/-! ## Claim C7 -/

/-- Claim C7: after a resolve for a url and quiz type fills the cache
from a miss, a second resolve within the entry's TTL returns exactly
the stored payload, performs 0 upstream calls, and leaves every piece
of state unchanged. -/
theorem claim_C7 (sha : Sha) (env : Env) (st : RedisState) (now g : Nat)
    (url quizType : List Char) (r : QuizResult) (st' : RedisState)
    (g' c now2 : Nat)
    (hmiss : get_cached_quiz sha st now url quizType = .ok none)
    (h1 : generate_quiz_from_url sha env st now g url quizType = (.ok r, st', g', c))
    (h2 : now2 < now + CACHE_TTL) :
    generate_quiz_from_url sha env st' now2 g' url quizType = (.ok r, st', g', 0) := by
  cases hF : env.fetch url with
  | error e =>
    have hrun : generate_quiz_from_url sha env st now g url quizType =
        (.error (.fetch e), st, g, 0) := by
      simp [generate_quiz_from_url, hmiss, hF]
    rw [hrun] at h1
    simp at h1
  | ok html =>
    cases hX : env.extract html with
    | error e =>
      have hrun : generate_quiz_from_url sha env st now g url quizType =
          (.error (.extract e), st, g, 0) := by
        simp [generate_quiz_from_url, hmiss, hF, hX]
      rw [hrun] at h1
      simp at h1
    | ok text =>
      rcases hco : call_openai_from (env.genBackend (mkPrompt quizType
        (env.classify text) (estimate_difficulty env.fk text) (snippet text)))
        env.rand g with ⟨s, g2⟩
      cases s with
      | retryError e2 =>
        have hrun : generate_quiz_from_url sha env st now g url quizType =
            (.error (.upstreamRetryError e2), st, g2, 1) := by
          simp [generate_quiz_from_url, hmiss, hF, hX, hco]
        rw [hrun] at h1
        simp at h1
      | ok quiz =>
        have hrun : generate_quiz_from_url sha env st now g url quizType =
            (.ok (mkResult (env.classify text) (estimate_difficulty env.fk text)
                quizType url now (snippet text) quiz),
              set_cached_quiz sha st now url quizType
                (mkResult (env.classify text) (estimate_difficulty env.fk text)
                  quizType url now (snippet text) quiz) CACHE_TTL, g2, 1) := by
          simp [generate_quiz_from_url, hmiss, hF, hX, hco]
        rw [hrun] at h1
        simp only [Prod.mk.injEq, Except.ok.injEq] at h1
        obtain ⟨hr, hst, hg, _⟩ := h1
        have hlive : redis_get st' now2 (cache_key_url sha url quizType) = some (.enc r) := by
          rw [← hst, set_cached_quiz, hr]
          exact redis_get_setex_live _ _ _ _ _ _ h2
        have hget : get_cached_quiz sha st' now2 url quizType = .ok (some r) := by
          simp [get_cached_quiz, hlive, json_loads]
        unfold generate_quiz_from_url
        rw [hget]

/-- The quiz result produced by the concrete successful run used as
witness material: topic and difficulty from `okEnv`, the whole short
text as excerpt, and the empty payload of global attempt 0. -/
def wRes : QuizResult :=
  mkResult "Tech" "easy" mcq testUrl 0 ("content".toList) ""

/-- Claim C7, witness: a concrete first resolve fills the cache; the
second resolve at time 1000 (within the 3600-second TTL) replays the
stored payload with 0 upstream calls. -/
theorem claim_C7_witness :
    generate_quiz_from_url zeroSha okEnv
        (set_cached_quiz zeroSha [] 0 testUrl mcq wRes CACHE_TTL) 1000 1 testUrl mcq =
      (.ok wRes, set_cached_quiz zeroSha [] 0 testUrl mcq wRes CACHE_TTL, 1, 0) :=
  claim_C7 zeroSha okEnv [] 0 0 testUrl mcq wRes
    (set_cached_quiz zeroSha [] 0 testUrl mcq wRes CACHE_TTL) 1 1 1000
    rfl rfl (by norm_num [CACHE_TTL])

/-! ## Claim C8 -/

/-- Claim C8: for an identity with a limit of `K` requests per window
`W`, the first `K` admission checks inside one window all succeed, the
`(K+1)`-th check in the same window returns `false` — a plain denied
decision, not an error — and a request arriving once the window has
elapsed is admitted again. -/
theorem claim_C8 (K W t0 t' : Nat) (ts : List Nat)
    (hK : 1 ≤ K) (hW : 1 ≤ W) (hlen : ts.length = K)
    (hin : ∀ t ∈ ts, t0 ≤ t ∧ t < t0 + W) (ht' : t0 + W ≤ t') :
    (runChecks K W none (t0 :: ts)).1 = List.replicate K true ++ [false] ∧
    (allow_request K W (runChecks K W none (t0 :: ts)).2 t').1 = true := by
  obtain ⟨n, rfl⟩ : ∃ n, K = n + 1 := ⟨K - 1, by omega⟩
  have h1 : allow_request (n + 1) W none t0 = (true, ⟨t0, 1⟩) := rfl
  have h2 := runChecks_within_window (n + 1) W t0 n 1 ts (by omega) (by omega) hin
  have hrun : runChecks (n + 1) W none (t0 :: ts) =
      (true :: (List.replicate n true ++ [false]), some ⟨t0, n + 1⟩) := by
    simp [runChecks, h1, h2]
  rw [hrun]
  constructor
  · simp [List.replicate_succ]
  · have hel : W ≤ t' - t0 := by omega
    simp [allow_request, hel]

/-- Claim C8, witness: limit 2 per 10-second window; checks at times
0, 3, 5 admit twice then deny; a check at time 10 is admitted. -/
theorem claim_C8_witness :
    (runChecks 2 10 none [0, 3, 5]).1 = List.replicate 2 true ++ [false] ∧
    (allow_request 2 10 (runChecks 2 10 none [0, 3, 5]).2 10).1 = true :=
  claim_C8 2 10 0 10 [3, 5] (by norm_num) (by norm_num) rfl (by decide) (by norm_num)

/-! ## Claim C9 -/

/-- Claim C9, counterexample.  The claim asserts that distinct
parameter combinations always produce distinct fingerprints.  The
digest space of `hashlib.sha256(...).hexdigest()` is the finite set of
64-hex-character strings, while the space of urls is infinite, so no
choice of digest function makes `cache_key_url` injective on urls:
some two distinct urls share a fingerprint for the same quiz type. -/
theorem claim_C9_cex :
    ∃ u1 u2 : List Char, u1 ≠ u2 ∧
      cache_key_url sha256hex u1 ("MCQ".toList) = cache_key_url sha256hex u2 ("MCQ".toList) := by
  obtain ⟨u1, u2, hne, heq⟩ := Finite.exists_ne_map_eq_of_infinite sha256hex
  exact ⟨u1, u2, hne, (cache_key_url_eq_iff sha256hex u1 u2 _ _).mpr ⟨rfl, heq⟩⟩

/-- Claim C9, amended.  The fingerprint is deterministic and exactly
as collision-free as the hash: two calls produce the same fingerprint
precisely when their quiz types are equal and the digests of their
urls are equal.  In particular identical parameters give identical
fingerprints and distinct quiz types never collide, but urls whose
digests coincide do collide — and such url pairs must exist, since the
digest space is finite. -/
theorem claim_C9 : ∀ (sha : Sha) (u1 u2 q1 q2 : List Char),
    cache_key_url sha u1 q1 = cache_key_url sha u2 q2 ↔ q1 = q2 ∧ sha u1 = sha u2 :=
  cache_key_url_eq_iff

/-! ## Claim C10 -/

/-- Claim C10: every successful fresh generation returns a
`content_excerpt` of at most 1600 characters; it is the prefix of the
cleaned article text ending at the last period found at offsets in
`[1400, 1600)` of the text, or the first 1500 characters when no
period occurs at those offsets. -/
theorem claim_C10 (sha : Sha) (env : Env) (st : RedisState) (now g : Nat)
    (url quizType html text : List Char) (r : QuizResult)
    (hmiss : get_cached_quiz sha st now url quizType = .ok none)
    (hf : env.fetch url = .ok html) (hx : env.extract html = .ok text)
    (hr : (generate_quiz_from_url sha env st now g url quizType).1 = .ok r) :
    r.content_excerpt = snippet text ∧
    r.content_excerpt.length ≤ 1600 ∧
    ((∃ i, 1400 ≤ i ∧ i < 1600 ∧ i < text.length ∧ text.getD i ' ' = '.' ∧
        (∀ j, i < j → j < 1600 → j < text.length → text.getD j ' ' ≠ '.') ∧
        snippet text = text.take (i + 1)) ∨
      ((∀ j, 1400 ≤ j → j < 1600 → j < text.length → text.getD j ' ' ≠ '.') ∧
        snippet text = text.take 1500)) := by
  have hex : r.content_excerpt = snippet text := by
    rcases hco : call_openai_from (env.genBackend (mkPrompt quizType
      (env.classify text) (estimate_difficulty env.fk text) (snippet text)))
      env.rand g with ⟨s, g2⟩
    cases s with
    | retryError e =>
      have : (generate_quiz_from_url sha env st now g url quizType).1 =
          .error (.upstreamRetryError e) := by
        simp [generate_quiz_from_url, hmiss, hf, hx, hco]
      rw [this] at hr
      exact absurd hr (by simp)
    | ok quiz =>
      have : (generate_quiz_from_url sha env st now g url quizType).1 =
          .ok (mkResult (env.classify text) (estimate_difficulty env.fk text)
            quizType url now (snippet text) quiz) := by
        simp [generate_quiz_from_url, hmiss, hf, hx, hco]
      rw [this] at hr
      cases hr
      rfl
  refine ⟨hex, by rw [hex]; exact snippet_length_le text, ?_⟩
  cases hfind : str_rfind text '.' MIN_SNIPPET MAX_SNIPPET with
  | some i =>
    left
    obtain ⟨h1, h2, h3, h4⟩ := rfindAux_some text '.' MIN_SNIPPET _ i hfind
    have hMN : MIN_SNIPPET = 1400 := rfl
    have hMX : MAX_SNIPPET = 1600 := rfl
    rw [hMN] at h1
    rw [hMX] at h2 h4
    refine ⟨i, h1, by omega, by omega, h3, ?_, by simp [snippet, hfind]⟩
    intro j hj1 hj2 hj3
    exact h4 j hj1 (by omega) (by omega)
  | none =>
    right
    have hnone := rfindAux_none text '.' MIN_SNIPPET _ hfind
    have hMN : MIN_SNIPPET = 1400 := rfl
    have hMX : MAX_SNIPPET = 1600 := rfl
    rw [hMX] at hnone
    refine ⟨?_, by simp [snippet, hfind]⟩
    intro j hj1 hj2 hj3
    exact hnone j (by omega) (by rw [hMN]; exact hj1)

/-- Claim C10, witness: the concrete successful run; its 7-character
text has no period at offsets in `[1400, 1600)`, so the excerpt is its
first 1500 characters — the whole text. -/
theorem claim_C10_witness :
    (wRes.content_excerpt = snippet ("content".toList)) ∧
    wRes.content_excerpt.length ≤ 1600 ∧
    ((∃ i, 1400 ≤ i ∧ i < 1600 ∧ i < ("content".toList).length ∧
        ("content".toList).getD i ' ' = '.' ∧
        (∀ j, i < j → j < 1600 → j < ("content".toList).length →
          ("content".toList).getD j ' ' ≠ '.') ∧
        snippet ("content".toList) = ("content".toList).take (i + 1)) ∨
      ((∀ j, 1400 ≤ j → j < 1600 → j < ("content".toList).length →
          ("content".toList).getD j ' ' ≠ '.') ∧
        snippet ("content".toList) = ("content".toList).take 1500)) :=
  claim_C10 zeroSha okEnv [] 0 0 testUrl mcq "h".toList ("content".toList) wRes
    rfl rfl rfl rfl

/-! ## Claim C1 -/

theorem callerStep_start_miss (sha : Sha) (env : Env) (now : Nat)
    (url quizType html text : List Char) (sh : Shared)
    (h : get_cached_quiz sha sh.st now url quizType = .ok none)
    (hf : env.fetch url = .ok html) (hx : env.extract html = .ok text) :
    callerStep sha env now url quizType .start sh = (.pendingUpstream text, sh) := by
  simp [callerStep, h, hf, hx]

theorem callerStep_pending_ok (sha : Sha) (env : Env) (now : Nat)
    (url quizType text : List Char) (sh : Shared) (q : String)
    (hb : env.genBackend (mkPrompt quizType (env.classify text)
      (estimate_difficulty env.fk text) (snippet text)) sh.g = .ok q) :
    callerStep sha env now url quizType (.pendingUpstream text) sh =
      (.done (.ok (mkResult (env.classify text) (estimate_difficulty env.fk text)
          quizType url now (snippet text) q)),
        ⟨set_cached_quiz sha sh.st now url quizType
            (mkResult (env.classify text) (estimate_difficulty env.fk text)
              quizType url now (snippet text) q) CACHE_TTL,
          sh.g + 1, sh.calls + 1⟩) := by
  have h := retryRun_first_ok (fun n => waitRandom 1 2 (env.rand n))
    (env.genBackend (mkPrompt quizType (env.classify text)
      (estimate_difficulty env.fk text) (snippet text))) sh.g q hb
  simp [callerStep, call_openai_from, h]

/-- Claim C1, counterexample.  The claim says N concurrent resolves
with the same fingerprint and an empty cache issue exactly one
upstream generate call and all receive the same payload.  The source
has no single-flight: under the interleaving in which both callers
pass their cache lookup before either calls upstream, two callers
issue 2 quiz-generation upstream calls — not 1 — and receive two
different payloads. -/
theorem claim_C1_cex :
    (runSched zeroSha okEnv 0 testUrl mcq [0, 1, 0, 1] initTwo).sh.calls = 2 ∧
    (runSched zeroSha okEnv 0 testUrl mcq [0, 1, 0, 1] initTwo).sh.calls ≠ 1 ∧
    ∃ r0 r1 : QuizResult,
      (runSched zeroSha okEnv 0 testUrl mcq [0, 1, 0, 1] initTwo).c0 = .done (.ok r0) ∧
      (runSched zeroSha okEnv 0 testUrl mcq [0, 1, 0, 1] initTwo).c1 = .done (.ok r1) ∧
      r0 ≠ r1 := by
  refine ⟨rfl, by decide,
    mkResult "Tech" "easy" mcq testUrl 0 ("content".toList) (String.mk (List.replicate 0 'q')),
    mkResult "Tech" "easy" mcq testUrl 0 ("content".toList) (String.mk (List.replicate 1 'q')),
    rfl, rfl, by decide⟩

/-- Claim C1, amended.  With no single-flight in the source, each
concurrent miss issues its own upstream generate call: when two
callers for the same url and quiz type both pass the cache lookup
before either reaches the upstream call, 2 quiz-generation upstream
invocations are made (each caller still completes with a payload — its
own); a single caller running alone issues exactly 1. -/
theorem claim_C1 (sha : Sha) (env : Env) (now : Nat)
    (url quizType html text : List Char) (pay : Nat → String)
    (hf : env.fetch url = .ok html) (hx : env.extract html = .ok text)
    (hb : ∀ p k, env.genBackend p k = .ok (pay k)) :
    (runSched sha env now url quizType [0, 1, 0, 1] initTwo).sh.calls = 2 ∧
    (∃ r0, (runSched sha env now url quizType [0, 1, 0, 1] initTwo).c0 = .done (.ok r0)) ∧
    (∃ r1, (runSched sha env now url quizType [0, 1, 0, 1] initTwo).c1 = .done (.ok r1)) ∧
    (runSched sha env now url quizType [0, 0] initTwo).sh.calls = 1 := by
  have hmiss : ∀ sh : Shared, sh.st = [] →
      get_cached_quiz sha sh.st now url quizType = .ok none := by
    intro sh hsh; rw [hsh]; rfl
  have s0 : callerStep sha env now url quizType .start ⟨[], 0, 0⟩ =
      (.pendingUpstream text, ⟨[], 0, 0⟩) :=
    callerStep_start_miss sha env now url quizType html text ⟨[], 0, 0⟩ (hmiss _ rfl) hf hx
  have p0 := callerStep_pending_ok sha env now url quizType text ⟨[], 0, 0⟩
    (pay 0) (hb _ 0)
  have e1 : schedStep sha env now url quizType initTwo 0 =
      ⟨.pendingUpstream text, .start, ⟨[], 0, 0⟩⟩ := by
    simp [schedStep, initTwo, s0]
  have e2 : schedStep sha env now url quizType
      ⟨.pendingUpstream text, .start, ⟨[], 0, 0⟩⟩ 1 =
      ⟨.pendingUpstream text, .pendingUpstream text, ⟨[], 0, 0⟩⟩ := by
    simp [schedStep, s0]
  have e3 : schedStep sha env now url quizType
      ⟨.pendingUpstream text, .pendingUpstream text, ⟨[], 0, 0⟩⟩ 0 =
      ⟨.done (.ok (mkResult (env.classify text) (estimate_difficulty env.fk text)
          quizType url now (snippet text) (pay 0))),
        .pendingUpstream text,
        ⟨set_cached_quiz sha [] now url quizType
            (mkResult (env.classify text) (estimate_difficulty env.fk text)
              quizType url now (snippet text) (pay 0)) CACHE_TTL, 1, 1⟩⟩ := by
    simp [schedStep, p0]
  have p1 := callerStep_pending_ok sha env now url quizType text
    ⟨set_cached_quiz sha [] now url quizType
        (mkResult (env.classify text) (estimate_difficulty env.fk text)
          quizType url now (snippet text) (pay 0)) CACHE_TTL, 1, 1⟩
    (pay 1) (hb _ 1)
  have e4 : schedStep sha env now url quizType
      ⟨.done (.ok (mkResult (env.classify text) (estimate_difficulty env.fk text)
          quizType url now (snippet text) (pay 0))),
        .pendingUpstream text,
        ⟨set_cached_quiz sha [] now url quizType
            (mkResult (env.classify text) (estimate_difficulty env.fk text)
              quizType url now (snippet text) (pay 0)) CACHE_TTL, 1, 1⟩⟩ 1 =
      ⟨.done (.ok (mkResult (env.classify text) (estimate_difficulty env.fk text)
          quizType url now (snippet text) (pay 0))),
        .done (.ok (mkResult (env.classify text) (estimate_difficulty env.fk text)
          quizType url now (snippet text) (pay 1))),
        ⟨set_cached_quiz sha
            (set_cached_quiz sha [] now url quizType
              (mkResult (env.classify text) (estimate_difficulty env.fk text)
                quizType url now (snippet text) (pay 0)) CACHE_TTL)
            now url quizType
            (mkResult (env.classify text) (estimate_difficulty env.fk text)
              quizType url now (snippet text) (pay 1)) CACHE_TTL, 2, 2⟩⟩ := by
    simp [schedStep, p1]
  have hrun : runSched sha env now url quizType [0, 1, 0, 1] initTwo =
      ⟨.done (.ok (mkResult (env.classify text) (estimate_difficulty env.fk text)
          quizType url now (snippet text) (pay 0))),
        .done (.ok (mkResult (env.classify text) (estimate_difficulty env.fk text)
          quizType url now (snippet text) (pay 1))),
        ⟨set_cached_quiz sha
            (set_cached_quiz sha [] now url quizType
              (mkResult (env.classify text) (estimate_difficulty env.fk text)
                quizType url now (snippet text) (pay 0)) CACHE_TTL)
            now url quizType
            (mkResult (env.classify text) (estimate_difficulty env.fk text)
              quizType url now (snippet text) (pay 1)) CACHE_TTL, 2, 2⟩⟩ := by
    simp only [runSched, e1, e2, e3, e4]
  have f2 : schedStep sha env now url quizType
      ⟨.pendingUpstream text, .start, ⟨[], 0, 0⟩⟩ 0 =
      ⟨.done (.ok (mkResult (env.classify text) (estimate_difficulty env.fk text)
          quizType url now (snippet text) (pay 0))),
        .start,
        ⟨set_cached_quiz sha [] now url quizType
            (mkResult (env.classify text) (estimate_difficulty env.fk text)
              quizType url now (snippet text) (pay 0)) CACHE_TTL, 1, 1⟩⟩ := by
    simp [schedStep, p0]
  have hrun2 : (runSched sha env now url quizType [0, 0] initTwo).sh.calls = 1 := by
    simp only [runSched, e1, f2]
  refine ⟨by rw [hrun], ⟨_, by rw [hrun]⟩, ⟨_, by rw [hrun]⟩, hrun2⟩

/-- Claim C1, witness: the amended statement at the concrete
all-success environment with per-attempt payloads. -/
theorem claim_C1_witness :
    (runSched zeroSha okEnv 0 testUrl mcq [0, 1, 0, 1] initTwo).sh.calls = 2 ∧
    (∃ r0, (runSched zeroSha okEnv 0 testUrl mcq [0, 1, 0, 1] initTwo).c0 = .done (.ok r0)) ∧
    (∃ r1, (runSched zeroSha okEnv 0 testUrl mcq [0, 1, 0, 1] initTwo).c1 = .done (.ok r1)) ∧
    (runSched zeroSha okEnv 0 testUrl mcq [0, 0] initTwo).sh.calls = 1 :=
  claim_C1 zeroSha okEnv 0 testUrl mcq "h".toList ("content".toList)
    (fun k => String.mk (List.replicate k 'q')) rfl rfl (fun _ _ => rfl)

end SmartQuiz
